import Mathlib

/-!
Shallow embedding of `src/pyclashbot/bot/fight.py` (the tactical battle engine of
py-clash-bot) and proofs about it.

Conventions used throughout:
* Python floats are modelled as `ℚ`; screen coordinates and pixel channels as `ℤ`;
  card indices as `ℕ`.
* `ThreatLevel` is a plain Python `enum.Enum` (no `IntEnum`, no ordering
  methods), so the ordering comparisons the source applies directly to its
  members — `max` over a lane at line 297, `>=` at lines 374/376 and 390 (and
  at line 499, inside the position planner, which no claim touches) — raise
  `TypeError` at run time. Those sites are modelled twice: the `..._enum`
  definitions reproduce the raising behavior through `Except`, while the
  total definitions read the comparisons through the ordinal values the enum
  assigns (NONE=0 < LOW=1 < MEDIUM=2 < HIGH=3 < CRITICAL=4, the order used
  explicitly via `.value` elsewhere in the file) and describe the evidently
  intended behavior. Theorems whose conclusions do not depend on the raising
  sites are stated over the total definitions.
* Every call to `random.*` is modelled by an explicit draw parameter threaded
  into the function, so all definitions are deterministic and executable.
* Python dict lookups with `.get(k, d)` are modelled by `Option.getD`.
* Mutation of `self.game_state` is modelled by explicit state passing.
-/

/-- Card categories (`CardType` enum in the source, fight.py lines 47-55). -/
inductive CardType
  | TANK | DPS | SWARM | SPELL | BUILDING | WIN_CONDITION | SUPPORT | ANTI_AIR
  deriving DecidableEq

/-- Attack lanes (`Lane` enum, lines 58-61). -/
inductive Lane
  | LEFT | RIGHT | CENTER
  deriving DecidableEq

/-- Five-tier threat ranking (`ThreatLevel` enum, lines 64-69). -/
inductive ThreatLevel
  | NONE | LOW | MEDIUM | HIGH | CRITICAL
  deriving DecidableEq

/-- The integer value the source assigns to each `ThreatLevel` member. -/
def ThreatLevel.value : ThreatLevel → ℕ
  | .NONE => 0
  | .LOW => 1
  | .MEDIUM => 2
  | .HIGH => 3
  | .CRITICAL => 4

/-- Play styles (`PlayStyle` enum, lines 72-79). -/
inductive PlayStyle
  | AGGRESSIVE | DEFENSIVE | COUNTER_PUSH | CYCLE | BEATDOWN | CONTROL | SIEGE
  deriving DecidableEq

/-- A detected opposing unit (`EnemyUnit` dataclass, lines 82-91). -/
structure EnemyUnit where
  position : ℤ × ℤ
  unit_type : CardType
  timestamp : ℚ
  threat_level : ThreatLevel
  lane : Lane
  health_estimate : ℚ := 1
  moving_towards : Option (ℤ × ℤ) := none
  predicted_path : List (ℤ × ℤ) := []
  deriving DecidableEq

/-- One recorded opponent play: an entry of `game_state.last_enemy_plays`.
The source reads these as dicts via `.get` with per-site defaults, so every
field is optional ("type" is called `ptype` here). -/
structure EnemyPlay where
  time : Option ℚ := none
  cost : Option ℤ := none
  lane : Option String := none
  ptype : Option String := none
  deriving DecidableEq

/-- Health of one side's three towers: the `{"king": _, "left": _, "right": _}`
dicts of `GameState` (lines 98-99). -/
structure TowerHealth where
  king : ℚ := 1
  left : ℚ := 1
  right : ℚ := 1
  deriving DecidableEq

/-- The tracked game state (`GameState` dataclass, lines 94-107).
`pressure_lanes` is the per-lane worst-threat dict, total over `Lane`. -/
structure GameState where
  our_elixir : ℤ := 0
  enemy_elixir_estimate : ℤ := 0
  our_tower_health : TowerHealth := {}
  enemy_tower_health : TowerHealth := {}
  enemy_units : List EnemyUnit := []
  last_enemy_plays : List EnemyPlay := []
  enemy_deck_revealed : List String := []
  pressure_lanes : Lane → ThreatLevel := fun _ => ThreatLevel.NONE

/-- The default `GameState()` built by `EnemyTracker.__init__`. -/
def initialGameState : GameState := {}

/-- `BattlefieldZones.ENEMY_SPAWN_LEFT` (line 112). -/
def ENEMY_SPAWN_LEFT : ℤ × ℤ := (150, 50)

/-- `BattlefieldZones.ENEMY_SPAWN_RIGHT` (line 113). -/
def ENEMY_SPAWN_RIGHT : ℤ × ℤ := (490, 50)

/-- `BattlefieldZones.ENEMY_SPAWN_CENTER` (line 114). -/
def ENEMY_SPAWN_CENTER : ℤ × ℤ := (320, 80)

/-- `BattlefieldZones.BRIDGE_LEFT` (line 120). -/
def BRIDGE_LEFT : ℤ × ℤ := (150, 285)

/-- `BattlefieldZones.BRIDGE_RIGHT` (line 121). -/
def BRIDGE_RIGHT : ℤ × ℤ := (490, 285)

/-- `BattlefieldZones.BRIDGE_CENTER` (line 122). -/
def BRIDGE_CENTER : ℤ × ℤ := (320, 285)

/-- `BattlefieldZones.KING_TOWER_ENEMY` (line 124). -/
def KING_TOWER_ENEMY : ℤ × ℤ := (320, 120)

/-- `BattlefieldZones.KING_TOWER_OURS` (line 125). -/
def KING_TOWER_OURS : ℤ × ℤ := (320, 450)

/-- `BattlefieldZones.PRINCESS_TOWER_ENEMY_LEFT` (line 127). -/
def PRINCESS_TOWER_ENEMY_LEFT : ℤ × ℤ := (200, 160)

/-- `BattlefieldZones.PRINCESS_TOWER_ENEMY_RIGHT` (line 128). -/
def PRINCESS_TOWER_ENEMY_RIGHT : ℤ × ℤ := (440, 160)

/-- `BattlefieldZones.PRINCESS_TOWER_OURS_LEFT` (line 129). -/
def PRINCESS_TOWER_OURS_LEFT : ℤ × ℤ := (200, 410)

/-- `BattlefieldZones.PRINCESS_TOWER_OURS_RIGHT` (line 130). -/
def PRINCESS_TOWER_OURS_RIGHT : ℤ × ℤ := (440, 410)

/-- An RGB pixel. -/
def Pixel : Type := ℤ × ℤ × ℤ

/-- A captured frame (`iar = emulator.screenshot()`): `rows = len(iar)`,
`cols = len(iar[0])`, and `px r c = iar[r][c]`. -/
structure Frame where
  rows : ℤ
  cols : ℤ
  px : ℤ → ℤ → Pixel

/-- Modelled from the spec: the color-match primitive
`pixel_is_equal(pixel, color, tol)` lives in `pyclashbot.detection.image_rec`,
which is not under `src/`; section 6 of the spec documents it as per-channel
absolute difference at most the tolerance. -/
def pixel_is_equal (p c : Pixel) (tol : ℤ) : Bool :=
  decide (|p.1 - c.1| ≤ tol) && decide (|p.2.1 - c.2.1| ≤ tol) &&
    decide (|p.2.2 - c.2.2| ≤ tol)

/-- The list `range(start, start + count*step, step)` for a positive literal
step: all the Python `range` calls in the file have literal bounds, each is
written here as `stepRange start count step` with the matching element count. -/
def stepRange (start : ℤ) (count : ℕ) (step : ℤ) : List ℤ :=
  (List.range count).map (fun k => start + step * (k : ℤ))

/-- `EnemyTracker._is_enemy_unit_pixel` (lines 201-210). -/
def is_enemy_unit_pixel (p : Pixel) : Bool :=
  [((255 : ℤ), (0 : ℤ), (0 : ℤ)), (200, 50, 50), (180, 30, 30),
    (255, 100, 100), (220, 80, 80)].any
    (fun c => pixel_is_equal p c 40)

/-- `EnemyTracker._detect_unit_at_position` (lines 188-199): scan a 5-spaced
grid in a radius-30 box (`range(-30, 30, 5)` twice) and report whether any
in-bounds pixel matches an enemy color. -/
def detect_unit_at_position (f : Frame) (pos : ℤ × ℤ) : Bool :=
  (stepRange (-30) 12 5).any fun dx =>
    (stepRange (-30) 12 5).any fun dy =>
      let cx := pos.1 + dx
      let cy := pos.2 + dy
      (decide (0 ≤ cx) && decide (cx < f.cols) &&
        decide (0 ≤ cy) && decide (cy < f.rows)) &&
        is_enemy_unit_pixel (f.px cy cx)

/-- `EnemyTracker._classify_unit_type` (lines 212-230): average brightness of
the in-bounds pixels of a 3-spaced grid in a radius-15 box
(`range(-15, 16, 3)` twice), tested against four brightness bands. -/
def classify_unit_type (f : Frame) (pos : ℤ × ℤ) : CardType :=
  let area_pixels : List Pixel :=
    ((stepRange (-15) 11 3).map fun dx =>
      (stepRange (-15) 11 3).filterMap fun dy =>
        if 0 ≤ pos.1 + dx ∧ pos.1 + dx < f.cols ∧
            0 ≤ pos.2 + dy ∧ pos.2 + dy < f.rows then
          some (f.px (pos.2 + dy) (pos.1 + dx))
        else none).flatten
  let avg_brightness : ℚ :=
    ((area_pixels.map (fun p => p.1 + p.2.1 + p.2.2)).sum : ℤ) /
      ((area_pixels.length : ℚ) * 3)
  if 200 < avg_brightness then CardType.SPELL
  else if 150 < avg_brightness then CardType.SWARM
  else if 100 < avg_brightness then CardType.DPS
  else CardType.TANK

/-- `EnemyTracker._assess_threat_level` (lines 232-242): vertical bands only.
The `lane` argument is unused, exactly as in the source. -/
def assess_threat_level (pos : ℤ × ℤ) (_lane : Lane) : ThreatLevel :=
  if 400 < pos.2 then ThreatLevel.CRITICAL
  else if 300 < pos.2 then ThreatLevel.HIGH
  else if 200 < pos.2 then ThreatLevel.MEDIUM
  else ThreatLevel.LOW

/-- The fixed probe list of `_detect_enemy_units` (lines 164-170). -/
def detection_zones : List ((ℤ × ℤ) × Lane) :=
  [(ENEMY_SPAWN_LEFT, Lane.LEFT), (ENEMY_SPAWN_RIGHT, Lane.RIGHT),
    (ENEMY_SPAWN_CENTER, Lane.CENTER), (BRIDGE_LEFT, Lane.LEFT),
    (BRIDGE_RIGHT, Lane.RIGHT)]

/-- `EnemyTracker._detect_enemy_units` (lines 163-186): the list of units built
from the probes (the whole `enemy_units` list is replaced with this). -/
def detect_enemy_units (f : Frame) (now : ℚ) : List EnemyUnit :=
  detection_zones.filterMap fun z =>
    if detect_unit_at_position f z.1 then
      some { position := z.1, unit_type := classify_unit_type f z.1,
             timestamp := now, threat_level := assess_threat_level z.1 z.2,
             lane := z.2 }
    else none

/-- Python `int()` applied to a rational: truncation toward zero. -/
def pyInt (q : ℚ) : ℤ := if 0 ≤ q then ⌊q⌋ else ⌈q⌉

/-- `EnemyTracker._estimate_enemy_elixir` (lines 244-253), as a function of the
recorded plays and the current time; returns the new estimate. -/
def estimate_enemy_elixir (plays : List EnemyPlay) (now : ℚ) : ℤ :=
  let recent_plays := plays.filter fun p => decide (now - p.time.getD 0 < 10)
  let estimated_spent : ℤ := (recent_plays.map (fun p => p.cost.getD 3)).sum
  let time_passed : ℚ :=
    match recent_plays with
    | [] => 10
    | p :: ps =>
      max 1 (now - ps.foldl (fun a q => min a (q.time.getD now)) (p.time.getD now))
  let elixir_generated : ℚ := time_passed * (14 / 10)
  max 0 (min 10 (pyInt (elixir_generated - estimated_spent)))

/-- The in-bounds sample columns of the health-bar strip read by
`_estimate_tower_health` (lines 274-289): `range(x - 25, x + 26)` restricted to
the frame, at row `y - 20`. -/
def towerSamples (f : Frame) (pos : ℤ × ℤ) : List ℤ :=
  (stepRange (pos.1 - 25) 51 1).filter fun cx =>
    decide (0 ≤ cx) && decide (cx < f.cols) &&
      decide (0 ≤ pos.2 - 20) && decide (pos.2 - 20 < f.rows)

/-- `EnemyTracker._estimate_tower_health` (lines 274-289): fraction of sampled
strip pixels matching full-health green, defaulting to 1.0 with no samples. -/
def estimate_tower_health (f : Frame) (pos : ℤ × ℤ) : ℚ :=
  let samples := towerSamples f pos
  let total_pixels := samples.length
  let total_green :=
    (samples.filter fun cx =>
      pixel_is_equal (f.px (pos.2 - 20) cx) (0, 255, 0) 50).length
  if 0 < total_pixels then (total_green : ℚ) / (total_pixels : ℚ) else 1

/-- `EnemyTracker._analyze_tower_health` (lines 255-272): refresh all six tower
health entries from the frame. -/
def analyze_tower_health (f : Frame) (gs : GameState) : GameState :=
  { gs with
    enemy_tower_health :=
      { left := estimate_tower_health f PRINCESS_TOWER_ENEMY_LEFT,
        right := estimate_tower_health f PRINCESS_TOWER_ENEMY_RIGHT,
        king := estimate_tower_health f KING_TOWER_ENEMY },
    our_tower_health :=
      { left := estimate_tower_health f PRINCESS_TOWER_OURS_LEFT,
        right := estimate_tower_health f PRINCESS_TOWER_OURS_RIGHT,
        king := estimate_tower_health f KING_TOWER_OURS } }

/-- The units of `gs` currently in `lane` (the comprehension at line 293). -/
def laneUnits (gs : GameState) (lane : Lane) : List EnemyUnit :=
  gs.enemy_units.filter fun u => decide (u.lane = lane)

/-- The ordinal reading of Python `max` over a nonempty sequence of threat
levels: the first element is the running maximum, replaced whenever a later
element has a strictly greater `.value`. At line 297 the source compares the
plain-Enum members themselves, which raises `TypeError` whenever there are
two or more elements; that raising behavior is `pyMaxThreatEnum` below. -/
def pyMaxThreat (t : ThreatLevel) (ts : List ThreatLevel) : ThreatLevel :=
  ts.foldl (fun acc x => if acc.value < x.value then x else acc) t

/-- `EnemyTracker._update_threat_levels` (lines 291-298): set each lane's
pressure to NONE when it has no units, else to the max of its units' threats. -/
def update_threat_levels (gs : GameState) : GameState :=
  { gs with
    pressure_lanes := fun lane =>
      match laneUnits gs lane with
      | [] => ThreatLevel.NONE
      | u :: rest => pyMaxThreat u.threat_level (rest.map (·.threat_level)) }

/-- The mutable state of `EnemyTracker` touched by the claims: its game state
and the scan rate-limiter clock (`last_scan_time`, initialized to 0.0). The
pattern tables (`enemy_play_patterns`, `enemy_response_patterns`) are read only
by `predict_enemy_next_move`, which no claim mentions, and are omitted. -/
structure TrackerState where
  game_state : GameState := initialGameState
  last_scan_time : ℚ := 0

/-- `EnemyTracker.scan_battlefield` (lines 151-161): no-op within 0.5s of the
previous scan, else detect units, estimate elixir, analyze tower health and
recompute lane threats, then record the scan time. The threat-recompute step
here is the ordinal-reading `update_threat_levels`; its raising rendering is
`update_threat_levels_enum`. -/
def scan_battlefield (f : Frame) (now : ℚ) (s : TrackerState) : TrackerState :=
  if now - s.last_scan_time < 1 / 2 then s
  else
    let gs1 := { s.game_state with enemy_units := detect_enemy_units f now }
    let gs2 := { gs1 with
      enemy_elixir_estimate := estimate_enemy_elixir gs1.last_enemy_plays now }
    let gs3 := analyze_tower_health f gs2
    { game_state := update_threat_levels gs3, last_scan_time := now }

/-- Tracker states reachable during a battle: the freshly constructed tracker,
followed by any sequence of battlefield scans (the only writer of the game
state in the source). -/
inductive Reachable : TrackerState → Prop
  | init : Reachable {}
  | scan (f : Frame) (now : ℚ) {s : TrackerState} :
      Reachable s → Reachable (scan_battlefield f now s)

/-- The fields set up by `TacticalAI.__init__` (lines 318-325); the tracker it
wraps is passed explicitly to each function here. -/
structure TacticalAIState where
  current_strategy : PlayStyle := PlayStyle.DEFENSIVE
  cycle_count : ℕ := 0
  last_push_time : ℚ := 0
  elixir_advantage_threshold : ℤ := 2

/-- Result of `TacticalAI._analyze_pressure` (lines 347-355). -/
structure PressureInfo where
  total_pressure : ℕ
  max_pressure_lane : Lane
  needs_immediate_defense : Bool
  deriving DecidableEq

/-- `TacticalAI._analyze_pressure` (lines 347-355): total pressure is the sum of
the per-lane threat values; the max-pressure lane is the first lane of maximal
value in the dict's insertion order LEFT, RIGHT, CENTER (Python `max` keeps the
first maximum); immediate defense is needed iff the total reaches HIGH's value. -/
def analyze_pressure (gs : GameState) : PressureInfo :=
  let total_pressure :=
    ([Lane.LEFT, Lane.RIGHT, Lane.CENTER].map fun l => (gs.pressure_lanes l).value).sum
  { total_pressure := total_pressure,
    max_pressure_lane :=
      [Lane.RIGHT, Lane.CENTER].foldl
        (fun acc l =>
          if (gs.pressure_lanes acc).value < (gs.pressure_lanes l).value then l else acc)
        Lane.LEFT,
    needs_immediate_defense := decide (ThreatLevel.HIGH.value ≤ total_pressure) }

/-- `TacticalAI._determine_play_style` (lines 357-368). -/
def determine_play_style (gs : GameState) : PlayStyle :=
  let analysis := analyze_pressure gs
  let elixir_diff := gs.our_elixir - gs.enemy_elixir_estimate
  if analysis.needs_immediate_defense then PlayStyle.DEFENSIVE
  else if 3 ≤ elixir_diff then PlayStyle.AGGRESSIVE
  else if elixir_diff ≤ -2 then PlayStyle.CYCLE
  else PlayStyle.COUNTER_PUSH

/-- The ordinal reading of `TacticalAI._select_priority_lane` (lines
370-384); `draw` is the `random.random()` value used to break an exact
tower-health tie. Lines 374/376 compare plain-Enum members with `>=`, which
raises `TypeError` on every call; that raising behavior is
`select_priority_lane_enum` below. -/
def select_priority_lane (gs : GameState) (draw : ℚ) : Lane :=
  if ThreatLevel.HIGH.value ≤ (gs.pressure_lanes Lane.LEFT).value then Lane.LEFT
  else if ThreatLevel.HIGH.value ≤ (gs.pressure_lanes Lane.RIGHT).value then Lane.RIGHT
  else if gs.enemy_tower_health.left < gs.enemy_tower_health.right then Lane.LEFT
  else if gs.enemy_tower_health.right < gs.enemy_tower_health.left then Lane.RIGHT
  else if draw < 1 / 2 then Lane.LEFT else Lane.RIGHT

/-- The random draws consumed while handling one threat in
`_calculate_counter_position` and `_recommend_counter_card`: the lateral jitter
of the SWARM branch (`randint(-40, 40)`), the jitter of the generic branch
(`randint(-30, 30)`), and the `random.choice` pick. -/
structure CounterRand where
  dxSwarm : ℤ := 0
  dxOther : ℤ := 0
  choice : ℕ := 0

/-- `TacticalAI._calculate_counter_position` (lines 401-409). -/
def calculate_counter_position (r : CounterRand) (threat : EnemyUnit) : ℤ × ℤ :=
  if threat.unit_type = CardType.TANK then
    (threat.position.1, min (threat.position.2 + 80) 450)
  else if threat.unit_type = CardType.SWARM then
    (threat.position.1 + r.dxSwarm, threat.position.2 + 60)
  else (threat.position.1 + r.dxOther, threat.position.2 + 50)

/-- `TacticalAI._recommend_counter_card` (lines 411-420): the counter table,
with `random.choice` modelled as indexing by the draw modulo the (nonempty)
list length, so the default of `getD` is never reached. -/
def recommend_counter_card (r : CounterRand) (threat : EnemyUnit) : String :=
  let counters : List String :=
    match threat.unit_type with
    | CardType.TANK => ["building", "swarm", "dps"]
    | CardType.SWARM => ["spell", "splash"]
    | CardType.DPS => ["tank", "building"]
    | CardType.SPELL => ["none"]
    | CardType.BUILDING => ["spell", "tank"]
    | _ => ["generic"]
  counters.getD (r.choice % counters.length) "generic"

/-- One entry of the `defensive_needs` list (lines 392-397). -/
structure Need where
  threat : EnemyUnit
  counter_position : ℤ × ℤ
  recommended_counter : String
  urgency : ℕ
  deriving DecidableEq

/-- Stable insertion of a need into a list sorted by strictly later positions
having no larger urgency: the new element goes after every element of urgency
at least its own, which is how Python's stable `sorted(..., reverse=True)`
orders equal keys. -/
def insertNeedDesc (n : Need) : List Need → List Need
  | [] => [n]
  | m :: ms => if m.urgency < n.urgency then n :: m :: ms else m :: insertNeedDesc n ms

/-- Python `sorted(needs, key=urgency, reverse=True)` (line 399): stable
descending sort by urgency. -/
def sortNeedsDesc (l : List Need) : List Need :=
  l.foldl (fun acc n => insertNeedDesc n acc) []

/-- The ordinal reading of `TacticalAI._assess_defensive_needs` (lines
386-399): one need per unit at HIGH-or-above threat, urgency the threat's
ordinal value (line 396 does use `.value`), sorted descending by urgency;
`rc i` gives the random draws consumed for the i-th unit. The threshold
itself (line 390) compares plain-Enum members with `>=`, which raises
`TypeError` whenever any unit exists; that raising behavior is
`assess_defensive_needs_enum` below. -/
def assess_defensive_needs (rc : ℕ → CounterRand) (units : List EnemyUnit) :
    List Need :=
  sortNeedsDesc <| units.enum.filterMap fun iu =>
    if ThreatLevel.HIGH.value ≤ iu.2.threat_level.value then
      some { threat := iu.2,
             counter_position := calculate_counter_position (rc iu.1) iu.2,
             recommended_counter := recommend_counter_card (rc iu.1) iu.2,
             urgency := iu.2.threat_level.value }
    else none

/-- Result of `TacticalAI._evaluate_push_opportunity` (lines 442-447). -/
structure PushInfo where
  should_push : Bool
  opportunity_score : ℕ
  recommended_lane : Lane
  push_type : String
  deriving DecidableEq

/-- `TacticalAI._evaluate_push_opportunity` (lines 422-447); `now` is the
current wall clock and `draw` the tie-break draw of its internal
`_select_priority_lane` call. -/
def evaluate_push_opportunity (ai : TacticalAIState) (gs : GameState) (now : ℚ)
    (draw : ℚ) : PushInfo :=
  let time_since_last_push := now - ai.last_push_time
  let elixir_advantage := gs.our_elixir - gs.enemy_elixir_estimate
  let no_immediate_threats :=
    [Lane.LEFT, Lane.RIGHT, Lane.CENTER].all fun l =>
      decide ((gs.pressure_lanes l).value < ThreatLevel.HIGH.value)
  let opportunity_score : ℕ :=
    (if 2 ≤ elixir_advantage then 3 else 0) +
      (if no_immediate_threats then 2 else 0) +
      (if 15 < time_since_last_push then 1 else 0)
  { should_push := decide (4 ≤ opportunity_score),
    opportunity_score := opportunity_score,
    recommended_lane := select_priority_lane gs draw,
    push_type := if 4 ≤ elixir_advantage then "beatdown" else "pressure" }

/-- `TacticalAI._calculate_tower_advantage` (lines 342-345). -/
def calculate_tower_advantage (gs : GameState) : ℚ :=
  (gs.our_tower_health.king + gs.our_tower_health.left + gs.our_tower_health.right) -
    (gs.enemy_tower_health.king + gs.enemy_tower_health.left + gs.enemy_tower_health.right)

/-- The situational-analysis record built by `TacticalAI.analyze_situation`
(lines 327-340). -/
structure Analysis where
  elixir_advantage : ℤ
  tower_advantage : ℚ
  pressure_situation : PressureInfo
  recommended_play_style : PlayStyle
  priority_lane : Lane
  defensive_needs : List Need
  push_opportunity : PushInfo
  deriving DecidableEq

/-- All random draws consumed by one `analyze_situation` call: the tie-break
draw of the direct `_select_priority_lane` call, the one of the call inside
`_evaluate_push_opportunity`, and the per-unit draws of
`_assess_defensive_needs`. -/
structure AnalysisRand where
  lane_draw1 : ℚ := 0
  lane_draw2 : ℚ := 0
  counter : ℕ → CounterRand := fun _ => {}

/-- `TacticalAI.analyze_situation` (lines 327-340). -/
def analyze_situation (ai : TacticalAIState) (gs : GameState) (now : ℚ)
    (r : AnalysisRand) : Analysis :=
  { elixir_advantage := gs.our_elixir - gs.enemy_elixir_estimate,
    tower_advantage := calculate_tower_advantage gs,
    pressure_situation := analyze_pressure gs,
    recommended_play_style := determine_play_style gs,
    priority_lane := select_priority_lane gs r.lane_draw1,
    defensive_needs := assess_defensive_needs r.counter gs.enemy_units,
    push_opportunity := evaluate_push_opportunity ai gs now r.lane_draw2 }

/-- A strategic decision (the dicts returned by `_make_strategic_decision` and
its helpers): action kind, priority, confidence, reasoning tag, and the
action-specific optional parameters ("type" is called `ptype` here). -/
structure Decision where
  action : String
  priority : ℕ
  confidence : ℚ
  reasoning : String
  target : Option Need := none
  lane : Option Lane := none
  ptype : Option String := none
  predicted_spell : Option String := none
  deriving DecidableEq

/-- The last `n` elements of a list, Python `lst[-n:]`. -/
def lastN (n : ℕ) (l : List α) : List α := l.drop (l.length - n)

/-- `MasterBattleEngine._detect_spell_pattern` (lines 1101-1113): needs at
least 3 recorded plays; fires when the last two "spell"-typed plays are spaced
8 to 12 seconds apart. The `battle_time` parameter is unused, as in the source. -/
def detect_spell_pattern (gs : GameState) (_battle_time : ℚ) : Bool :=
  let enemy_plays := gs.last_enemy_plays
  if enemy_plays.length < 3 then false
  else
    let spell_plays := enemy_plays.filter fun p => p.ptype == some "spell"
    if 2 ≤ spell_plays.length then
      match spell_plays.reverse with
      | pLast :: pPrev :: _ =>
        let time_diff := pLast.time.getD 0 - pPrev.time.getD 0
        decide (8 ≤ time_diff) && decide (time_diff ≤ 12)
      | _ => false
    else false

/-- `MasterBattleEngine._predict_incoming_spell` (lines 1115-1117):
`random.choice` over the five common spells, modelled by the draw `k`. -/
def predict_incoming_spell (k : Fin 5) : String :=
  ["fireball", "lightning", "rocket", "arrows", "zap"].get k

/-- `MasterBattleEngine._detect_opponent_cycle_vulnerability` (lines
1138-1145): the last 4 recorded plays exist and their costs (default 4) sum to
at most 12. -/
def detect_opponent_cycle_vulnerability (gs : GameState) : Bool :=
  let recent_plays := lastN 4 gs.last_enemy_plays
  if recent_plays.length < 4 then false
  else decide ((recent_plays.map fun p => p.cost.getD 4).sum ≤ 12)

/-- `MasterBattleEngine._detect_advanced_opportunity` (lines 1119-1136). -/
def detect_advanced_opportunity (analysis : Analysis) (battle_time : ℚ)
    (gs : GameState) : Option Decision :=
  if 180 < battle_time ∧ 3 ≤ analysis.elixir_advantage then
    some { action := "overtime_push", priority := 5, confidence := 95 / 100,
           reasoning := "overtime_advantage" }
  else if detect_opponent_cycle_vulnerability gs then
    some { action := "cycle_break", priority := 4, confidence := 85 / 100,
           reasoning := "opponent_cycle_vulnerable" }
  else none

/-- `MasterBattleEngine._make_tempo_based_decision` (lines 1147-1168): keyed
purely on elapsed battle time; the analysis argument is unused, as in the
source. -/
def make_tempo_based_decision (_analysis : Analysis) (battle_time : ℚ) :
    Decision :=
  if battle_time < 30 then
    { action := "conservative_opening", priority := 2, confidence := 7 / 10,
      reasoning := "early_game_caution" }
  else if 30 ≤ battle_time ∧ battle_time < 120 then
    { action := "tempo_control", priority := 3, confidence := 8 / 10,
      reasoning := "mid_game_control" }
  else
    { action := "endgame_tactics", priority := 4, confidence := 9 / 10,
      reasoning := "late_game_aggression" }

/-- `MasterBattleEngine._make_strategic_decision` (lines 804-850): the
per-cycle trigger cascade, first match wins; `gs` is the tracker's game state
read for the elixir guard and the pattern detectors, `spell_draw` the
`random.choice` draw of `_predict_incoming_spell`. Exactly one decision is
returned. (The `base_decision` dict built at lines 805-810 is dead code: every
path returns one of the dicts below.) -/
def make_strategic_decision (analysis : Analysis) (gs : GameState)
    (battle_time : ℚ) (spell_draw : Fin 5) : Decision :=
  let urgent_threats := analysis.defensive_needs.filter fun n => 3 ≤ n.urgency
  if analysis.defensive_needs ≠ [] ∧ urgent_threats ≠ [] then
    { action := "immediate_defense", priority := 5, confidence := 95 / 100,
      target := urgent_threats.head?, reasoning := "critical_threat_detected" }
  else if analysis.push_opportunity.should_push ∧
      7 ≤ gs.our_elixir ∧ gs.enemy_elixir_estimate ≤ 3 then
    { action := "push", priority := 4, confidence := 9 / 10,
      lane := some analysis.priority_lane, ptype := some "punishment_push",
      reasoning := "massive_elixir_advantage" }
  else if detect_spell_pattern gs battle_time then
    { action := "spell_prediction", priority := 3, confidence := 8 / 10,
      predicted_spell := some (predict_incoming_spell spell_draw),
      reasoning := "spell_pattern_detected" }
  else
    match detect_advanced_opportunity analysis battle_time gs with
    | some d => d
    | none => make_tempo_based_decision analysis battle_time

/-- Append to a FIFO deque with the given capacity (`collections.deque` with
`maxlen`): the new element goes to the back, evicting the front when full. -/
def pushCap (cap : ℕ) (x : α) (l : List α) : List α :=
  let l2 := l ++ [x]
  if cap < l2.length then l2.tail else l2

/-- `EliteCardSelector._estimate_card_type` (lines 645-652). -/
def estimate_card_type (card_index : ℕ) : CardType :=
  match card_index with
  | 0 => CardType.TANK
  | 1 => CardType.DPS
  | 2 => CardType.SWARM
  | 3 => CardType.SPELL
  | _ => CardType.SUPPORT

/-- `EliteCardSelector.situation_priorities` (lines 594-599), with the empty
default of the `.get(situation, [])` lookup. -/
def situation_priorities (situation : String) : List CardType :=
  if situation = "defense" then [CardType.BUILDING, CardType.SWARM, CardType.SPELL]
  else if situation = "push" then [CardType.WIN_CONDITION, CardType.TANK, CardType.SUPPORT]
  else if situation = "counter" then [CardType.DPS, CardType.SPELL, CardType.SWARM]
  else if situation = "cycle" then [CardType.SUPPORT, CardType.SWARM]
  else []

/-- `EliteCardSelector.card_synergies` (lines 591-593), with the empty default
of the `.get(card_index, [])` lookup. -/
def card_synergies (card_index : ℕ) : List ℕ :=
  match card_index with
  | 0 => [1, 2]
  | 1 => [0, 3]
  | 2 => [0, 3]
  | 3 => [1, 2]
  | _ => []

/-- `EliteCardSelector._calculate_synergy_bonus` (lines 677-687): +15 per
synergy partner of the card found among the last two recently used slots. -/
def calculate_synergy_bonus (recent_cards : List ℕ) (card_index : ℕ) : ℚ :=
  let recent_plays := lastN 2 recent_cards
  (card_synergies card_index).foldl
    (fun bonus s => if s ∈ recent_plays then bonus + 15 else bonus) 0

/-- `EliteCardSelector._calculate_card_score` (lines 654-675): base 50,
+30 for a situation-priority category, recency penalty `(4 - index)*10` when
the slot is in the recently-used window, synergy bonus only when a tactical
context was supplied, plus the `uniform(-5, 5)` jitter draw. -/
def calculate_card_score (recent_cards : List ℕ) (card_index : ℕ)
    (card_type : CardType) (situation : String) (has_tactical_ai : Bool)
    (jitter : ℚ) : ℚ :=
  let base1 : ℚ := 50
  let base2 := if card_type ∈ situation_priorities situation then base1 + 30 else base1
  let base3 :=
    if card_index ∈ recent_cards then
      base2 - ((4 - (recent_cards.indexOf card_index : ℚ)) * 10)
    else base2
  let base4 := if has_tactical_ai then base3 + calculate_synergy_bonus recent_cards card_index else base3
  base4 + jitter

/-- `EliteCardSelector._determine_situation_from_analysis` (lines 635-643). -/
def determine_situation_from_analysis (analysis : Analysis) : String :=
  if analysis.defensive_needs ≠ [] then "defense"
  else if analysis.push_opportunity.should_push then "push"
  else if analysis.elixir_advantage ≤ -2 then "cycle"
  else "counter"

/-- `EliteCardSelector._determine_play_intent` (lines 689-697); the card-type
argument is unused, as in the source. -/
def determine_play_intent (_card_type : CardType) (situation : String) : String :=
  if situation = "defense" then "defensive"
  else if situation = "push" then "push"
  else if situation = "counter" then "counter"
  else if situation = "cycle" then "cycle"
  else "offensive"

/-- A supplied `tactical_ai` argument of `select_optimal_card`, reduced to what
that call consumes: the analyzer state, the tracker's game state, the wall
clock, and the random draws of the `analyze_situation()` call it triggers. -/
structure TacticalContext where
  ai : TacticalAIState
  gs : GameState
  now : ℚ
  rand : AnalysisRand

/-- Python `max(l, key=f)` over a nonempty list: the first element is the
running best, replaced whenever a later element scores strictly higher. -/
def pyMaxBy (f : α → ℚ) (x : α) (l : List α) : α :=
  l.foldl (fun acc y => if f acc < f y then y else acc) x

/-- `EliteCardSelector.select_optimal_card` (lines 601-633). Returns the
raised condition or the `(index, card type, play intent)` result, paired with
the selector's recently-used window after the call (an exception leaves the
window untouched). `jitter i` is the `uniform(-5, 5)` score draw for slot `i`. -/
def select_optimal_card (recent_cards : List ℕ) (available_indices : List ℕ)
    (situation : String) (tactical_ai : Option TacticalContext)
    (jitter : ℕ → ℚ) :
    Except String (ℕ × CardType × String) × List ℕ :=
  match available_indices with
  | [] => (Except.error "No cards available", recent_cards)
  | a :: rest =>
    let situation :=
      match tactical_ai with
      | some ctx => determine_situation_from_analysis
          (analyze_situation ctx.ai ctx.gs ctx.now ctx.rand)
      | none => situation
    let scoreOne := fun (i : ℕ) =>
      (i, estimate_card_type i,
        determine_play_intent (estimate_card_type i) situation,
        calculate_card_score recent_cards i (estimate_card_type i) situation
          tactical_ai.isSome (jitter i))
    let best := pyMaxBy (fun x => x.2.2.2) (scoreOne a) (rest.map scoreOne)
    let selected_index := best.1
    let recent2 :=
      if selected_index ∈ recent_cards then recent_cards
      else pushCap 4 selected_index recent_cards
    (Except.ok (selected_index, best.2.1, best.2.2.1), recent2)

instance {ε α : Type} [DecidableEq ε] [DecidableEq α] : DecidableEq (Except ε α) :=
  fun a b =>
    match a, b with
    | Except.error e, Except.error f =>
      if h : e = f then isTrue (h ▸ rfl)
      else isFalse (fun c => h (Except.error.inj c))
    | Except.ok x, Except.ok y =>
      if h : x = y then isTrue (h ▸ rfl)
      else isFalse (fun c => h (Except.ok.inj c))
    | Except.error _, Except.ok _ => isFalse (fun c => Except.noConfusion c)
    | Except.ok _, Except.error _ => isFalse (fun c => Except.noConfusion c)

/-- One record of `_learn_from_play` (lines 1076-1089). -/
structure PlayRecord where
  decision : Decision
  timestamp : ℚ
  success : Bool
  deriving DecidableEq

/-- The orchestrator's `battle_memory` (lines 742-747): bounded success (20)
and failure (10) logs plus the per-action `{"success": _, "total": _}` tally
(`opponent_weaknesses`, an association list here). The `timing_patterns`
table is written nowhere in the source and is omitted. -/
structure BattleMemory where
  successful_plays : List PlayRecord := []
  failed_plays : List PlayRecord := []
  opponent_weaknesses : List (String × ℕ × ℕ) := []

/-- `MasterBattleEngine._update_opponent_profile` (lines 1091-1099). -/
def update_opponent_profile (mem : BattleMemory) (decision : Decision)
    (success : Bool) : BattleMemory :=
  let old := ((mem.opponent_weaknesses.lookup decision.action).getD (0, 0))
  let upd := (if success then old.1 + 1 else old.1, old.2 + 1)
  { mem with opponent_weaknesses :=
      (decision.action, upd) ::
        mem.opponent_weaknesses.filter (fun e => ¬e.1 = decision.action) }

/-- `MasterBattleEngine._learn_from_play` (lines 1076-1089): push the play
record into the bounded success or failure log and update the tally. -/
def learn_from_play (mem : BattleMemory) (decision : Decision) (now : ℚ)
    (success : Bool) : BattleMemory :=
  let record : PlayRecord := { decision := decision, timestamp := now, success := success }
  let mem1 :=
    if success then
      { mem with successful_plays := pushCap 20 record mem.successful_plays }
    else
      { mem with failed_plays := pushCap 10 record mem.failed_plays }
  update_opponent_profile mem1 decision success

/-- The emote gate of `MasterBattleEngine._apply_psychological_pressure`
(lines 1063-1074): the routine issues its emote sequence iff its internal
`random.random()` draw is below 0.15 (the choice of technique and emote
position is cosmetic and affects no tracked state). -/
def apply_psychological_pressure (draw : ℚ) : Bool :=
  decide (draw < 15 / 100)

/-- The post-dispatch step of one loop cycle of `execute_god_tier_battle`
(lines 780-784): on success, record the outcome and run the psychological
pressure routine; on failure, only record the outcome. Returns the updated
battle memory and whether the emote sequence was issued this cycle. -/
def cycle_post_dispatch (mem : BattleMemory) (decision : Decision) (now : ℚ)
    (success : Bool) (emote_draw : ℚ) : BattleMemory × Bool :=
  if success then
    (learn_from_play mem decision now true, apply_psychological_pressure emote_draw)
  else
    (learn_from_play mem decision now false, false)

/-! The raising rendering of the plain-Enum ordering sites. `ThreatLevel`
derives from `enum.Enum` and defines no ordering, so in Python every `<`,
`<=`, `>`, `>=` between two members raises `TypeError`; the definitions below
reproduce that behavior through `Except`, mirroring the source lines that the
total definitions above read ordinally. -/

/-- Python `x > y` between two plain-Enum `ThreatLevel` members: raises
`TypeError` regardless of the operands (the comparison `max` performs at
line 297). -/
def enumGtThreat (_x _y : ThreatLevel) : Except String Bool :=
  Except.error "TypeError: > not supported between instances of ThreatLevel"

/-- Python `x >= y` between two plain-Enum `ThreatLevel` members: raises
`TypeError` regardless of the operands (the comparisons at lines 374/376,
390 and 499). -/
def enumGeThreat (_x _y : ThreatLevel) : Except String Bool :=
  Except.error "TypeError: >= not supported between instances of ThreatLevel"

/-- Python `max` over a nonempty sequence of plain-Enum threat levels, as the
source runs it at line 297: the first element is the running maximum and every
later element is compared to it with `>`. A singleton returns its element
without comparing; two or more elements hit `enumGtThreat` and raise. -/
def pyMaxThreatEnum : ThreatLevel → List ThreatLevel → Except String ThreatLevel
  | t, [] => Except.ok t
  | t, x :: xs =>
    (enumGtThreat x t).bind fun b => pyMaxThreatEnum (if b then x else t) xs

/-- `EnemyTracker._update_threat_levels` (lines 291-298) with the plain-Enum
`max` of line 297: the per-lane loop succeeds on lanes with at most one unit
and raises `TypeError` on the first lane (in the order LEFT, RIGHT, CENTER)
holding two or more. -/
def update_threat_levels_enum (gs : GameState) : Except String GameState :=
  [Lane.LEFT, Lane.RIGHT, Lane.CENTER].foldlM
    (fun g lane =>
      match laneUnits g lane with
      | [] =>
        Except.ok
          { g with pressure_lanes := fun l =>
              if l = lane then ThreatLevel.NONE else g.pressure_lanes l }
      | u :: rest =>
        (pyMaxThreatEnum u.threat_level (rest.map (·.threat_level))).map
          fun max_threat =>
            { g with pressure_lanes := fun l =>
                if l = lane then max_threat else g.pressure_lanes l })
    gs

/-- `TacticalAI._select_priority_lane` (lines 370-384) with the plain-Enum
`>=` of lines 374/376: the very first comparison raises `TypeError`, so every
call fails before reaching the tower-health tie-break. -/
def select_priority_lane_enum (gs : GameState) (draw : ℚ) : Except String Lane :=
  (enumGeThreat (gs.pressure_lanes Lane.LEFT) ThreatLevel.HIGH).bind fun b1 =>
    if b1 then Except.ok Lane.LEFT
    else
      (enumGeThreat (gs.pressure_lanes Lane.RIGHT) ThreatLevel.HIGH).bind fun b2 =>
        if b2 then Except.ok Lane.RIGHT
        else if gs.enemy_tower_health.left < gs.enemy_tower_health.right then
          Except.ok Lane.LEFT
        else if gs.enemy_tower_health.right < gs.enemy_tower_health.left then
          Except.ok Lane.RIGHT
        else if draw < 1 / 2 then Except.ok Lane.LEFT
        else Except.ok Lane.RIGHT

/-- The per-unit loop of `_assess_defensive_needs` (lines 389-397) with the
plain-Enum `>=` of line 390: the threshold comparison of the first unit
raises, so the needs list is produced only for an empty unit list. -/
def assess_defensive_needs_enum_loop (rc : ℕ → CounterRand) :
    ℕ → List EnemyUnit → Except String (List Need)
  | _, [] => Except.ok []
  | i, u :: rest =>
    (enumGeThreat u.threat_level ThreatLevel.HIGH).bind fun b =>
      (assess_defensive_needs_enum_loop rc (i + 1) rest).bind fun tail =>
        if b then
          Except.ok
            ({ threat := u,
               counter_position := calculate_counter_position (rc i) u,
               recommended_counter := recommend_counter_card (rc i) u,
               urgency := u.threat_level.value } :: tail)
        else Except.ok tail

/-- `TacticalAI._assess_defensive_needs` (lines 386-399) with the plain-Enum
`>=` of line 390. -/
def assess_defensive_needs_enum (rc : ℕ → CounterRand) (units : List EnemyUnit) :
    Except String (List Need) :=
  (assess_defensive_needs_enum_loop rc 0 units).map sortNeedsDesc

/-- `TacticalAI._evaluate_push_opportunity` (lines 422-447) with its internal
`_select_priority_lane` call failing as in the source (its own threat test at
lines 429-431 uses `.value` and is total). -/
def evaluate_push_opportunity_enum (ai : TacticalAIState) (gs : GameState)
    (now : ℚ) (draw : ℚ) : Except String PushInfo :=
  let time_since_last_push := now - ai.last_push_time
  let elixir_advantage := gs.our_elixir - gs.enemy_elixir_estimate
  let no_immediate_threats :=
    [Lane.LEFT, Lane.RIGHT, Lane.CENTER].all fun l =>
      decide ((gs.pressure_lanes l).value < ThreatLevel.HIGH.value)
  let opportunity_score : ℕ :=
    (if 2 ≤ elixir_advantage then 3 else 0) +
      (if no_immediate_threats then 2 else 0) +
      (if 15 < time_since_last_push then 1 else 0)
  (select_priority_lane_enum gs draw).map fun lane =>
    { should_push := decide (4 ≤ opportunity_score),
      opportunity_score := opportunity_score,
      recommended_lane := lane,
      push_type := if 4 ≤ elixir_advantage then "beatdown" else "pressure" }

/-- `TacticalAI.analyze_situation` (lines 327-340) with the raising renderings
of its fallible entries. The dict entries are evaluated in source order:
elixir advantage, tower advantage, pressure and play style are total; the
first fallible entry is `priority_lane` (line 335), whose `TypeError`
therefore surfaces on every call, before `defensive_needs` (line 336) and
`push_opportunity` (line 337) are even evaluated. -/
def analyze_situation_enum (ai : TacticalAIState) (gs : GameState) (now : ℚ)
    (r : AnalysisRand) : Except String Analysis :=
  (select_priority_lane_enum gs r.lane_draw1).bind fun priority_lane =>
    (assess_defensive_needs_enum r.counter gs.enemy_units).bind fun defensive_needs =>
      (evaluate_push_opportunity_enum ai gs now r.lane_draw2).map fun push_opportunity =>
        { elixir_advantage := gs.our_elixir - gs.enemy_elixir_estimate,
          tower_advantage := calculate_tower_advantage gs,
          pressure_situation := analyze_pressure gs,
          recommended_play_style := determine_play_style gs,
          priority_lane := priority_lane,
          defensive_needs := defensive_needs,
          push_opportunity := push_opportunity }

/-- `EliteCardSelector.select_optimal_card` (lines 601-633) with the supplied
tactical context handled as in the source: the empty-slot raise (line 608)
comes first, then `tactical_ai.analyze_situation()` (line 612) runs — and
raises — before any scoring; with no context, or once the situation string is
fixed, the remaining lines are total and identical to `select_optimal_card`
above. An escaping exception leaves the recently-used window unchanged. -/
def select_optimal_card_enum (recent_cards : List ℕ)
    (available_indices : List ℕ) (situation : String)
    (tactical_ai : Option TacticalContext) (jitter : ℕ → ℚ) :
    Except String (ℕ × CardType × String) × List ℕ :=
  match available_indices with
  | [] => (Except.error "No cards available", recent_cards)
  | a :: rest =>
    let situationE : Except String String :=
      match tactical_ai with
      | some ctx =>
        (analyze_situation_enum ctx.ai ctx.gs ctx.now ctx.rand).map
          determine_situation_from_analysis
      | none => Except.ok situation
    match situationE with
    | Except.error e => (Except.error e, recent_cards)
    | Except.ok situation =>
      let scoreOne := fun (i : ℕ) =>
        (i, estimate_card_type i,
          determine_play_intent (estimate_card_type i) situation,
          calculate_card_score recent_cards i (estimate_card_type i) situation
            tactical_ai.isSome (jitter i))
      let best := pyMaxBy (fun x => x.2.2.2) (scoreOne a) (rest.map scoreOne)
      let recent2 :=
        if best.1 ∈ recent_cards then recent_cards
        else pushCap 4 best.1 recent_cards
      (Except.ok (best.1, best.2.1, best.2.2.1), recent2)

/-! Concrete fixtures used by witnesses and counterexamples. -/

/-- A frame whose every pixel is pure red, an enemy color: every probe of
`_detect_enemy_units` fires on it. -/
def allRed : Frame :=
  { rows := 600, cols := 640, px := fun _ _ => ((255 : ℤ), (0 : ℤ), (0 : ℤ)) }

/-- A degenerate zero-size frame: every sample of every strip is out of
bounds. -/
def noFrame : Frame :=
  { rows := 0, cols := 0, px := fun _ _ => ((0 : ℤ), (0 : ℤ), (0 : ℤ)) }

/-- A unit as the detector would build it at position (150, 450), the deepest
vertical band, in lane LEFT. -/
def u450 : EnemyUnit :=
  { position := (150, 450), unit_type := CardType.TANK, timestamp := 0,
    threat_level := assess_threat_level (150, 450) Lane.LEFT, lane := Lane.LEFT }

/-- Scenario-B game state: exactly one opposing unit, at the deepest vertical
band of lane LEFT. -/
def gsB : GameState := { initialGameState with enemy_units := [u450] }

/-- A unit as the detector builds it at the left spawn probe (threat LOW). -/
def uLow : EnemyUnit :=
  { position := ENEMY_SPAWN_LEFT, unit_type := CardType.TANK, timestamp := 0,
    threat_level := assess_threat_level ENEMY_SPAWN_LEFT Lane.LEFT,
    lane := Lane.LEFT }

/-- A unit as the detector builds it at the left bridge probe (threat
MEDIUM). -/
def uMed : EnemyUnit :=
  { position := BRIDGE_LEFT, unit_type := CardType.TANK, timestamp := 0,
    threat_level := assess_threat_level BRIDGE_LEFT Lane.LEFT,
    lane := Lane.LEFT }

/-- A game state with two units in lane LEFT (threats LOW and MEDIUM). -/
def gsTwo : GameState := { initialGameState with enemy_units := [uLow, uMed] }

/-- A quiet concrete analysis: no pressure, no needs, no push opportunity. -/
def A0 : Analysis :=
  { elixir_advantage := 0, tower_advantage := 0,
    pressure_situation :=
      { total_pressure := 0, max_pressure_lane := Lane.LEFT,
        needs_immediate_defense := false },
    recommended_play_style := PlayStyle.COUNTER_PUSH,
    priority_lane := Lane.LEFT, defensive_needs := [],
    push_opportunity :=
      { should_push := false, opportunity_score := 0,
        recommended_lane := Lane.LEFT, push_type := "pressure" } }

/-- A concrete analysis in which both the urgent-defense and the
overwhelming-push triggers are satisfiable at once. -/
def A1 : Analysis :=
  { A0 with
    defensive_needs :=
      [{ threat := u450, counter_position := (150, 450),
         recommended_counter := "building", urgency := 4 }],
    elixir_advantage := 6,
    push_opportunity := { A0.push_opportunity with should_push := true } }

/-- A game state making the overwhelming-push elixir guard pass. -/
def GS1 : GameState :=
  { initialGameState with our_elixir := 8, enemy_elixir_estimate := 2 }

/-- A concrete decision (the fields of the dead `base_decision` dict at lines
805-810). -/
def D0 : Decision :=
  { action := "standard", priority := 1, confidence := 1 / 2,
    reasoning := "default" }

/-- A concrete tactical context: the fresh analyzer and tracker state. -/
def ctx0 : TacticalContext :=
  { ai := {}, gs := initialGameState, now := 0, rand := {} }

/-! Helper lemmas. -/

/-- The running maximum of `pyMaxThreat` bounds its seed and every element of
the list. -/
theorem pyMaxThreat_is_ub (ts : List ThreatLevel) (t : ThreatLevel) :
    t.value ≤ (pyMaxThreat t ts).value ∧
      ∀ x ∈ ts, x.value ≤ (pyMaxThreat t ts).value := by
  induction ts generalizing t with
  | nil => exact ⟨le_refl _, by simp⟩
  | cons y ys ih =>
    have step : pyMaxThreat t (y :: ys) =
        pyMaxThreat (if t.value < y.value then y else t) ys := rfl
    constructor
    · rcases ih (if t.value < y.value then y else t) with ⟨h1, _⟩
      refine le_trans ?_ (step ▸ h1)
      split <;> omega
    · intro x hx
      rcases List.mem_cons.mp hx with hxy | hxys
      · rcases ih (if t.value < y.value then y else t) with ⟨h1, _⟩
        subst hxy
        refine le_trans ?_ (step ▸ h1)
        split <;> omega
      · rcases ih (if t.value < y.value then y else t) with ⟨_, h2⟩
        exact step ▸ h2 x hxys

/-- The running maximum of `pyMaxThreat` is its seed or one of the list's
elements. -/
theorem pyMaxThreat_mem (ts : List ThreatLevel) (t : ThreatLevel) :
    pyMaxThreat t ts = t ∨ pyMaxThreat t ts ∈ ts := by
  induction ts generalizing t with
  | nil => exact Or.inl rfl
  | cons y ys ih =>
    have step : pyMaxThreat t (y :: ys) =
        pyMaxThreat (if t.value < y.value then y else t) ys := rfl
    rw [step]
    rcases ih (if t.value < y.value then y else t) with h | h
    · rw [h]
      split
      · exact Or.inr (List.mem_cons_self _ _)
      · exact Or.inl rfl
    · exact Or.inr (List.mem_cons_of_mem _ h)

/-- The ordinal reading of `_update_threat_levels` (the evidently intended
behavior): for every game state and every lane, the lane's recorded pressure
is NONE when the lane has no units, is an upper bound (in the threat order) of
every unit currently in the lane, and is attained by one of those units when
the lane is nonempty — i.e. it is the maximum threat over the lane's units.
The program as written computes this only for lanes with at most one unit:
see `update_threat_levels_enum_raises_on_two_units`. -/
theorem update_threat_levels_pressure_is_max (gs : GameState) (lane : Lane) :
    (laneUnits gs lane = [] →
      (update_threat_levels gs).pressure_lanes lane = ThreatLevel.NONE) ∧
    (∀ u ∈ laneUnits gs lane,
      u.threat_level.value ≤
        ((update_threat_levels gs).pressure_lanes lane).value) ∧
    (laneUnits gs lane ≠ [] →
      ∃ u ∈ laneUnits gs lane,
        (update_threat_levels gs).pressure_lanes lane = u.threat_level) := by
  have hpr : (update_threat_levels gs).pressure_lanes lane =
      match laneUnits gs lane with
      | [] => ThreatLevel.NONE
      | u :: rest => pyMaxThreat u.threat_level (rest.map (·.threat_level)) := rfl
  cases h : laneUnits gs lane with
  | nil =>
    exact ⟨fun _ => by rw [hpr, h], fun u hu => absurd hu (List.not_mem_nil u),
      fun hne => absurd rfl hne⟩
  | cons v rest =>
    have hval : (update_threat_levels gs).pressure_lanes lane =
        pyMaxThreat v.threat_level (rest.map (·.threat_level)) := by
      rw [hpr, h]
    refine ⟨fun he => absurd he (List.cons_ne_nil v rest),
      fun u hu => ?_, fun _ => ?_⟩
    · rw [hval]
      rcases List.mem_cons.mp hu with rfl | hurest
      · exact (pyMaxThreat_is_ub _ _).1
      · exact (pyMaxThreat_is_ub _ _).2 u.threat_level
          (List.mem_map_of_mem (·.threat_level) hurest)
    · rw [hval]
      rcases pyMaxThreat_mem (rest.map (·.threat_level)) v.threat_level with
        heq | hmem
      · exact ⟨v, List.mem_cons_self v rest, heq⟩
      · rcases List.mem_map.mp hmem with ⟨u, hu, hequ⟩
        exact ⟨u, List.mem_cons_of_mem v hu, hequ.symm⟩

/-- Instance of the ordinal-reading pressure lemma at a state whose LEFT lane
holds two units (threats LOW and MEDIUM). -/
theorem update_threat_levels_pressure_is_max_witness :
    uLow.threat_level.value ≤
      ((update_threat_levels gsTwo).pressure_lanes Lane.LEFT).value :=
  (update_threat_levels_pressure_is_max gsTwo Lane.LEFT).2.1 uLow (by decide)

/-- `_assess_defensive_needs` on a single unit: one need (with the unit's
threat ordinal as urgency) iff the unit is at HIGH-or-above threat. -/
theorem assess_defensive_needs_singleton (rc : ℕ → CounterRand) (u : EnemyUnit) :
    assess_defensive_needs rc [u] =
      if ThreatLevel.HIGH.value ≤ u.threat_level.value then
        [{ threat := u, counter_position := calculate_counter_position (rc 0) u,
           recommended_counter := recommend_counter_card (rc 0) u,
           urgency := u.threat_level.value }]
      else [] := by
  have h : ([u]).enum = [(0, u)] := rfl
  by_cases hc : ThreatLevel.HIGH.value ≤ u.threat_level.value
  · simp [assess_defensive_needs, h, hc, sortNeedsDesc, insertNeedDesc]
  · simp [assess_defensive_needs, h, hc, sortNeedsDesc]

/-- The first trigger of `_make_strategic_decision`: when some defensive need
has urgency at least 3, the decision is the immediate defense one. -/
theorem make_strategic_decision_urgent (a : Analysis) (gs : GameState)
    (bt : ℚ) (k : Fin 5)
    (h : a.defensive_needs.filter (fun n => 3 ≤ n.urgency) ≠ []) :
    (make_strategic_decision a gs bt k).action = "immediate_defense" := by
  have hne : a.defensive_needs ≠ [] := by
    intro hnil
    rw [hnil] at h
    exact h rfl
  simp only [make_strategic_decision]
  rw [if_pos ⟨hne, h⟩]

/-- Spec Scenario B under the ordinal reading of the threat comparisons (the
evidently intended behavior): for a game state whose unit list is exactly one
opposing unit detected at the deepest vertical band (y > 400) in lane LEFT,
the detector-assigned threat is CRITICAL, the recomputed LEFT-lane pressure is
CRITICAL, the situational analysis holds exactly one defensive need and its
urgency is 4, and the strategic decision of that cycle has action
"immediate_defense". The program as written never reaches this point: see
`scenario_b_enum_analysis_raises`. -/
theorem scenario_b_single_deep_unit (x y : ℤ) (hy : 400 < y) (uty : CardType)
    (ts hp : ℚ) (gs0 : GameState) (ai : TacticalAIState) (now bt : ℚ)
    (r : AnalysisRand) (k : Fin 5)
    (hunits : gs0.enemy_units =
      [{ position := (x, y), unit_type := uty, timestamp := ts,
         threat_level := assess_threat_level (x, y) Lane.LEFT,
         lane := Lane.LEFT, health_estimate := hp }]) :
    assess_threat_level (x, y) Lane.LEFT = ThreatLevel.CRITICAL ∧
    (update_threat_levels gs0).pressure_lanes Lane.LEFT = ThreatLevel.CRITICAL ∧
    ((analyze_situation ai (update_threat_levels gs0) now r).defensive_needs.map
      (fun n => n.urgency)) = [4] ∧
    (make_strategic_decision
      (analyze_situation ai (update_threat_levels gs0) now r)
      (update_threat_levels gs0) bt k).action = "immediate_defense" := by
  have hCrit : assess_threat_level (x, y) Lane.LEFT = ThreatLevel.CRITICAL := by
    simp [assess_threat_level, hy]
  have hLane : laneUnits gs0 Lane.LEFT =
      [{ position := (x, y), unit_type := uty, timestamp := ts,
         threat_level := assess_threat_level (x, y) Lane.LEFT,
         lane := Lane.LEFT, health_estimate := hp }] := by
    simp [laneUnits, hunits]
  have hPress : (update_threat_levels gs0).pressure_lanes Lane.LEFT =
      ThreatLevel.CRITICAL := by
    have h1 : (update_threat_levels gs0).pressure_lanes Lane.LEFT =
        match laneUnits gs0 Lane.LEFT with
        | [] => ThreatLevel.NONE
        | v :: rest => pyMaxThreat v.threat_level (rest.map (·.threat_level)) :=
      rfl
    rw [h1, hLane]
    simpa [pyMaxThreat] using hCrit
  have hUnits2 : (update_threat_levels gs0).enemy_units =
      [{ position := (x, y), unit_type := uty, timestamp := ts,
         threat_level := assess_threat_level (x, y) Lane.LEFT,
         lane := Lane.LEFT, health_estimate := hp }] := hunits
  have hNeeds : (analyze_situation ai (update_threat_levels gs0) now r).defensive_needs =
      assess_defensive_needs r.counter ((update_threat_levels gs0).enemy_units) := rfl
  have hNeedsVal :
      (analyze_situation ai (update_threat_levels gs0) now r).defensive_needs =
      [{ threat :=
           { position := (x, y), unit_type := uty, timestamp := ts,
             threat_level := assess_threat_level (x, y) Lane.LEFT,
             lane := Lane.LEFT, health_estimate := hp },
         counter_position := calculate_counter_position (r.counter 0)
           { position := (x, y), unit_type := uty, timestamp := ts,
             threat_level := assess_threat_level (x, y) Lane.LEFT,
             lane := Lane.LEFT, health_estimate := hp },
         recommended_counter := recommend_counter_card (r.counter 0)
           { position := (x, y), unit_type := uty, timestamp := ts,
             threat_level := assess_threat_level (x, y) Lane.LEFT,
             lane := Lane.LEFT, health_estimate := hp },
         urgency := 4 }] := by
    rw [hNeeds, hUnits2, assess_defensive_needs_singleton]
    simp [hCrit, ThreatLevel.value]
  refine ⟨hCrit, hPress, ?_, ?_⟩
  · rw [hNeedsVal]
    rfl
  · refine make_strategic_decision_urgent _ _ _ _ ?_
    rw [hNeedsVal]
    simp

/-- Instance of the ordinal-reading Scenario B lemma at the concrete state
`gsB` (one unit at (150, 450) in lane LEFT). -/
theorem scenario_b_single_deep_unit_witness :
    (make_strategic_decision (analyze_situation {} (update_threat_levels gsB) 0 {})
      (update_threat_levels gsB) 10 0).action = "immediate_defense" :=
  (scenario_b_single_deep_unit 150 450 (by decide) CardType.TANK 0 1 gsB {} 0 10
    {} 0 rfl).2.2.2

/-- The urgent-defense trigger of `_make_strategic_decision` (lines 812-814):
the defensive-needs list is nonempty and holds a need of urgency at least 3. -/
def urgent_defense_trigger (a : Analysis) : Prop :=
  a.defensive_needs ≠ [] ∧ a.defensive_needs.filter (fun n => 3 ≤ n.urgency) ≠ []

instance (a : Analysis) : Decidable (urgent_defense_trigger a) := by
  unfold urgent_defense_trigger
  infer_instance

/-- The overwhelming-push trigger of `_make_strategic_decision` (lines
823-827): the analysis recommends pushing, our elixir is at least 7 and the
opponent estimate at most 3. -/
def overwhelming_push_trigger (a : Analysis) (gs : GameState) : Prop :=
  a.push_opportunity.should_push ∧ 7 ≤ gs.our_elixir ∧ gs.enemy_elixir_estimate ≤ 3

instance (a : Analysis) (gs : GameState) :
    Decidable (overwhelming_push_trigger a gs) := by
  unfold overwhelming_push_trigger
  infer_instance

/-- C3: the decision cascade evaluates its triggers in the fixed order
urgent-defense, overwhelming-push, spell-pattern, advanced-opportunity,
tempo-fallback; whenever several are satisfied the decision is the one of the
highest-precedence satisfied trigger, and (being a total function into
`Decision`) exactly one decision is produced per cycle. -/
theorem strategic_decision_trigger_precedence (a : Analysis) (gs : GameState)
    (bt : ℚ) (k : Fin 5) :
    (urgent_defense_trigger a →
      (make_strategic_decision a gs bt k).action = "immediate_defense") ∧
    (¬urgent_defense_trigger a → overwhelming_push_trigger a gs →
      (make_strategic_decision a gs bt k).action = "push") ∧
    (¬urgent_defense_trigger a → ¬overwhelming_push_trigger a gs →
      detect_spell_pattern gs bt = true →
      (make_strategic_decision a gs bt k).action = "spell_prediction") ∧
    (¬urgent_defense_trigger a → ¬overwhelming_push_trigger a gs →
      detect_spell_pattern gs bt = false →
      ∀ d, detect_advanced_opportunity a bt gs = some d →
        make_strategic_decision a gs bt k = d) ∧
    (¬urgent_defense_trigger a → ¬overwhelming_push_trigger a gs →
      detect_spell_pattern gs bt = false →
      detect_advanced_opportunity a bt gs = none →
      make_strategic_decision a gs bt k = make_tempo_based_decision a bt) := by
  refine ⟨fun hu => make_strategic_decision_urgent a gs bt k hu.2,
    fun hnu hp => ?_, fun hnu hnp hsp => ?_, fun hnu hnp hsp d hadv => ?_,
    fun hnu hnp hsp hadv => ?_⟩
  · have hnu2 : ¬(a.defensive_needs ≠ [] ∧
        a.defensive_needs.filter (fun n => 3 ≤ n.urgency) ≠ []) := hnu
    have hp2 : (a.push_opportunity.should_push = true) ∧
        7 ≤ gs.our_elixir ∧ gs.enemy_elixir_estimate ≤ 3 := hp
    simp only [make_strategic_decision]
    rw [if_neg hnu2, if_pos hp2]
  · have hnu2 : ¬(a.defensive_needs ≠ [] ∧
        a.defensive_needs.filter (fun n => 3 ≤ n.urgency) ≠ []) := hnu
    have hnp2 : ¬((a.push_opportunity.should_push = true) ∧
        7 ≤ gs.our_elixir ∧ gs.enemy_elixir_estimate ≤ 3) := hnp
    simp only [make_strategic_decision]
    rw [if_neg hnu2, if_neg hnp2, if_pos hsp]
  · have hnu2 : ¬(a.defensive_needs ≠ [] ∧
        a.defensive_needs.filter (fun n => 3 ≤ n.urgency) ≠ []) := hnu
    have hnp2 : ¬((a.push_opportunity.should_push = true) ∧
        7 ≤ gs.our_elixir ∧ gs.enemy_elixir_estimate ≤ 3) := hnp
    have hsp2 : ¬(detect_spell_pattern gs bt = true) := by
      rw [hsp]
      exact Bool.false_ne_true
    simp only [make_strategic_decision]
    rw [if_neg hnu2, if_neg hnp2, if_neg hsp2, hadv]
  · have hnu2 : ¬(a.defensive_needs ≠ [] ∧
        a.defensive_needs.filter (fun n => 3 ≤ n.urgency) ≠ []) := hnu
    have hnp2 : ¬((a.push_opportunity.should_push = true) ∧
        7 ≤ gs.our_elixir ∧ gs.enemy_elixir_estimate ≤ 3) := hnp
    have hsp2 : ¬(detect_spell_pattern gs bt = true) := by
      rw [hsp]
      exact Bool.false_ne_true
    simp only [make_strategic_decision]
    rw [if_neg hnu2, if_neg hnp2, if_neg hsp2, hadv]

/-- Witness for C3 at an analysis and state where the urgent-defense and
overwhelming-push triggers are satisfied at once: the higher-precedence
urgent defense wins. -/
theorem strategic_decision_trigger_precedence_witness :
    (make_strategic_decision A1 GS1 200 0).action = "immediate_defense" :=
  (strategic_decision_trigger_precedence A1 GS1 200 0).1 (by decide)

/-- `select_optimal_card` over the ordinal-reading analyzer: on an empty slot
list it fails with the documented "No cards available" condition and leaves
the recently-used window unchanged, and on a one-slot list it returns exactly
that slot (with some category and intent). In the program as written the
one-slot return only happens when no tactical context is supplied — a
supplied context raises inside `analyze_situation()` first: see
`select_optimal_card_enum_context_raises`. -/
theorem select_optimal_card_empty_and_singleton (recent : List ℕ)
    (situation : String) (tac : Option TacticalContext) (jitter : ℕ → ℚ) :
    select_optimal_card recent [] situation tac jitter =
      (Except.error "No cards available", recent) ∧
    ∀ s : ℕ, ∃ ty : CardType, ∃ intent : String,
      select_optimal_card recent [s] situation tac jitter =
        (Except.ok (s, ty, intent),
          if s ∈ recent then recent else pushCap 4 s recent) :=
  ⟨rfl, fun _ => ⟨_, _, rfl⟩⟩

/-- Counterexample for C7 as stated: a successful call whose returned slot (2)
is already in the recently-used window does not push it — the window stays
`[2]`, while a push would give `[2, 2]`. -/
theorem select_optimal_card_present_slot_not_pushed :
    (select_optimal_card [2] [2] "neutral" none (fun _ => 0)).1 =
      Except.ok (2, CardType.SWARM, "offensive") ∧
    (select_optimal_card [2] [2] "neutral" none (fun _ => 0)).2 = [2] ∧
    pushCap 4 2 [2] = [2, 2] ∧
    (select_optimal_card [2] [2] "neutral" none (fun _ => 0)).2 ≠
      pushCap 4 2 [2] := by
  decide

/-- Appending into the capacity-4 window keeps at most 4 entries. -/
theorem pushCap_length_le (x : ℕ) (l : List ℕ) (h : l.length ≤ 4) :
    (pushCap 4 x l).length ≤ 4 := by
  simp only [pushCap]
  split
  · simpa using h
  · next hlt =>
    simp only [List.length_append, List.length_cons, List.length_nil] at hlt ⊢
    omega

/-- The appended element is in the capacity-4 window afterwards. -/
theorem mem_pushCap (x : ℕ) (l : List ℕ) : x ∈ pushCap 4 x l := by
  cases l with
  | nil => simp [pushCap]
  | cons a t =>
    simp only [pushCap]
    split
    · simp
    · simp

/-- Appending into a full capacity-4 window evicts the oldest entry. -/
theorem pushCap_full (x : ℕ) (l : List ℕ) (h : l.length = 4) :
    pushCap 4 x l = l.tail ++ [x] := by
  cases l with
  | nil => simp at h
  | cons a t =>
    have hlt : 4 < ((a :: t) ++ [x]).length := by
      simp only [List.length_append, List.length_cons, List.length_nil] at h ⊢
      omega
    simp only [pushCap, if_pos hlt]
    simp

/-- The successful branch of `select_optimal_card`: some slot is picked and the
window is updated by the guarded push of lines 630-631. -/
theorem select_optimal_card_cons_eq (recent : List ℕ) (a : ℕ) (rest : List ℕ)
    (situation : String) (tac : Option TacticalContext) (jitter : ℕ → ℚ) :
    ∃ sel : ℕ, ∃ ty : CardType, ∃ intent : String,
      select_optimal_card recent (a :: rest) situation tac jitter =
        (Except.ok (sel, ty, intent),
          if sel ∈ recent then recent else pushCap 4 sel recent) :=
  ⟨_, _, _, rfl⟩

/-- C7 as amended: after every successful `select_optimal_card` call on a
window of at most 4 entries, the returned slot is pushed into the window only
when it is not already present (an already-present slot leaves the window
unchanged); in all cases the window keeps at most 4 entries and contains the
returned slot, and when a new slot is pushed into a full window the oldest
entry is evicted first. -/
theorem select_optimal_card_window_invariant (recent : List ℕ) (a : ℕ)
    (rest : List ℕ) (situation : String) (tac : Option TacticalContext)
    (jitter : ℕ → ℚ) (hlen : recent.length ≤ 4) :
    ∃ sel : ℕ, ∃ ty : CardType, ∃ intent : String,
      select_optimal_card recent (a :: rest) situation tac jitter =
        (Except.ok (sel, ty, intent),
          if sel ∈ recent then recent else pushCap 4 sel recent) ∧
      (select_optimal_card recent (a :: rest) situation tac jitter).2.length ≤ 4 ∧
      sel ∈ (select_optimal_card recent (a :: rest) situation tac jitter).2 ∧
      (sel ∉ recent → recent.length = 4 →
        (select_optimal_card recent (a :: rest) situation tac jitter).2 =
          recent.tail ++ [sel]) := by
  obtain ⟨sel, ty, intent, heq⟩ :=
    select_optimal_card_cons_eq recent a rest situation tac jitter
  refine ⟨sel, ty, intent, heq, ?_, ?_, ?_⟩
  · rw [heq]
    by_cases hm : sel ∈ recent
    · simpa [hm] using hlen
    · simpa [hm] using pushCap_length_le sel recent hlen
  · rw [heq]
    by_cases hm : sel ∈ recent
    · simp [hm]
    · simpa [hm] using mem_pushCap sel recent
  · intro hnm hfull
    rw [heq]
    simpa [hnm] using pushCap_full sel recent hfull

/-- Witness for C7's amended claim at a full window and a fresh slot. -/
theorem select_optimal_card_window_invariant_witness :
    (select_optimal_card [0, 1, 2, 3] [7] "neutral" none (fun _ => 0)).2.length
      ≤ 4 := by
  obtain ⟨sel, ty, intent, _, h2, _, _⟩ :=
    select_optimal_card_window_invariant [0, 1, 2, 3] 7 [] "neutral" none
      (fun _ => 0) (by decide)
  exact h2

/-- C5: for every frame and tower anchor the tower-health estimate is in
[0, 1], and when no pixel of the sampled strip is in bounds it defaults to 1.0
instead of failing; and for every play history and time the opponent elixir
estimate is an integer in [0, 10]. -/
theorem tower_health_and_elixir_bounds :
    (∀ (f : Frame) (pos : ℤ × ℤ),
      0 ≤ estimate_tower_health f pos ∧ estimate_tower_health f pos ≤ 1 ∧
      (towerSamples f pos = [] → estimate_tower_health f pos = 1)) ∧
    (∀ (plays : List EnemyPlay) (now : ℚ),
      0 ≤ estimate_enemy_elixir plays now ∧
        estimate_enemy_elixir plays now ≤ 10) := by
  constructor
  · intro f pos
    simp only [estimate_tower_health]
    by_cases hpos : 0 < (towerSamples f pos).length
    · rw [if_pos hpos]
      have hle : ((towerSamples f pos).filter fun cx =>
          pixel_is_equal (f.px (pos.2 - 20) cx) (0, 255, 0) 50).length ≤
          (towerSamples f pos).length :=
        List.length_filter_le _ _
      have hq : (0 : ℚ) < ((towerSamples f pos).length : ℚ) := by
        exact_mod_cast hpos
      refine ⟨div_nonneg (by positivity) (le_of_lt hq), ?_, ?_⟩
      · rw [div_le_one hq]
        exact_mod_cast hle
      · intro hnil
        rw [hnil] at hpos
        simp at hpos
    · rw [if_neg hpos]
      exact ⟨zero_le_one, le_refl 1, fun _ => rfl⟩
  · intro plays now
    simp only [estimate_enemy_elixir]
    constructor
    · exact le_max_left 0 _
    · exact max_le (by norm_num) (min_le_left 10 _)

/-- Witness for C5: the zero-size frame has no in-bounds strip pixels and the
estimate defaults to 1; the empty history yields an estimate within bounds. -/
theorem tower_health_and_elixir_bounds_witness :
    estimate_tower_health noFrame (200, 410) = 1 ∧
    0 ≤ estimate_enemy_elixir [] 0 ∧ estimate_enemy_elixir [] 0 ≤ 10 :=
  ⟨(tower_health_and_elixir_bounds.1 noFrame (200, 410)).2.2 (by decide),
    (tower_health_and_elixir_bounds.2 [] 0).1,
    (tower_health_and_elixir_bounds.2 [] 0).2⟩

/-- Counterexample for C6 as stated: at battle time exactly 120 s the tempo
fallback yields "endgame_tactics", not "tempo_control". -/
theorem tempo_at_120_not_tempo_control :
    (make_tempo_based_decision A0 120).action = "endgame_tactics" ∧
    (make_tempo_based_decision A0 120).action ≠ "tempo_control" := by
  refine ⟨rfl, fun h => ?_⟩
  have h2 : ("endgame_tactics" : String) = "tempo_control" := h
  exact absurd h2 (by decide)

/-- C6 as amended: the tempo fallback yields "conservative_opening" (priority
2) for t < 30, "tempo_control" (priority 3) for 30 ≤ t < 120, and
"endgame_tactics" (priority 4) for t ≥ 120 — in particular at t = 120 exactly
it is "endgame_tactics" — and its priority always lies in [2, 4]. -/
theorem tempo_decision_characterization (a : Analysis) (t : ℚ) :
    (t < 30 → (make_tempo_based_decision a t).action = "conservative_opening" ∧
      (make_tempo_based_decision a t).priority = 2) ∧
    (30 ≤ t → t < 120 →
      (make_tempo_based_decision a t).action = "tempo_control" ∧
      (make_tempo_based_decision a t).priority = 3) ∧
    (120 ≤ t → (make_tempo_based_decision a t).action = "endgame_tactics" ∧
      (make_tempo_based_decision a t).priority = 4) ∧
    (2 ≤ (make_tempo_based_decision a t).priority ∧
      (make_tempo_based_decision a t).priority ≤ 4) := by
  simp only [make_tempo_based_decision]
  split
  · next h1 =>
    exact ⟨fun _ => ⟨rfl, rfl⟩, fun h30 _ => absurd h1 (not_lt.mpr h30),
      fun h120 => absurd h1 (not_lt.mpr (by linarith)), by norm_num⟩
  · next h1 =>
    split
    · next h2 =>
      exact ⟨fun hlt => absurd hlt h1, fun _ _ => ⟨rfl, rfl⟩,
        fun h120 => absurd h2.2 (not_lt.mpr h120), by norm_num⟩
    · next h2 =>
      refine ⟨fun hlt => absurd hlt h1, fun h30 hlt => absurd ⟨h30, hlt⟩ h2,
        fun _ => ⟨rfl, rfl⟩, by norm_num⟩

/-- Witness for C6's amended claim at t = 120 exactly. -/
theorem tempo_decision_characterization_witness :
    (make_tempo_based_decision A0 120).action = "endgame_tactics" :=
  ((tempo_decision_characterization A0 120).2.2.1 (by norm_num)).1

/-- Counterexample for C8 as stated: in a cycle whose dispatched action failed,
the psychological-pressure routine is not invoked at all — even at a draw (0)
at which the routine itself would issue its emote. -/
theorem emote_skipped_on_failed_dispatch :
    (cycle_post_dispatch {} D0 0 false 0).2 = false ∧
    apply_psychological_pressure 0 = true := by
  refine ⟨rfl, ?_⟩
  simp only [apply_psychological_pressure, decide_eq_true_eq]
  norm_num

/-- C8 as amended: the emote routine runs (issuing with its internal 0.15
probability gate) only in cycles whose dispatched action succeeded; in a
failed cycle it is never invoked, so issuance is conditioned on the cycle's
dispatch outcome. -/
theorem emote_only_after_success (mem : BattleMemory) (d : Decision)
    (now r : ℚ) :
    (cycle_post_dispatch mem d now true r).2 = apply_psychological_pressure r ∧
    (cycle_post_dispatch mem d now false r).2 = false :=
  ⟨rfl, rfl⟩

/-- One battlefield scan never writes `our_elixir` (it only replaces the unit
list, the elixir estimate, the tower healths and the lane threats), and the
estimate it writes is the clamped value, hence nonnegative. -/
theorem scan_battlefield_invariant (f : Frame) (now : ℚ) (s : TrackerState)
    (h : s.game_state.our_elixir = 0 ∧ 0 ≤ s.game_state.enemy_elixir_estimate) :
    (scan_battlefield f now s).game_state.our_elixir = 0 ∧
    0 ≤ (scan_battlefield f now s).game_state.enemy_elixir_estimate := by
  by_cases hc : now - s.last_scan_time < 1 / 2
  · simp only [scan_battlefield, if_pos hc]
    exact h
  · simp only [scan_battlefield, if_neg hc]
    exact ⟨h.1, le_max_left 0 _⟩

/-- Every reachable tracker state has `our_elixir = 0` and a nonnegative
opponent estimate. -/
theorem reachable_elixir (s : TrackerState) (h : Reachable s) :
    s.game_state.our_elixir = 0 ∧ 0 ≤ s.game_state.enemy_elixir_estimate := by
  induction h with
  | init => exact ⟨rfl, le_refl 0⟩
  | scan f now hr ih => exact scan_battlefield_invariant f now _ ih

/-- Any decision produced by `_detect_advanced_opportunity` is the overtime
push or the cycle break. -/
theorem advanced_opportunity_action (a : Analysis) (bt : ℚ) (gs : GameState)
    (d : Decision) (h : detect_advanced_opportunity a bt gs = some d) :
    d.action = "overtime_push" ∨ d.action = "cycle_break" := by
  simp only [detect_advanced_opportunity] at h
  split at h
  · injection h with h2
    subst h2
    exact Or.inl rfl
  · split at h
    · injection h with h2
      subst h2
      exact Or.inr rfl
    · exact Option.noConfusion h

/-- C9: in every tracker state reachable by scans from the initial one,
`our_elixir` is still its initial 0 (no operation ever writes it), so the
computed elixir advantage is at most 0; consequently the recommended play
style is never AGGRESSIVE (which needs advantage at least 3), the
overwhelming-push trigger (which needs our elixir at least 7) never holds,
and the strategic decision never has action "push". -/
theorem our_elixir_never_written (s : TrackerState) (h : Reachable s) :
    s.game_state.our_elixir = 0 ∧
    s.game_state.our_elixir - s.game_state.enemy_elixir_estimate ≤ 0 ∧
    (∀ (ai : TacticalAIState) (now : ℚ) (r : AnalysisRand),
      (analyze_situation ai s.game_state now r).elixir_advantage ≤ 0) ∧
    determine_play_style s.game_state ≠ PlayStyle.AGGRESSIVE ∧
    (∀ (a : Analysis) (bt : ℚ) (k : Fin 5),
      ¬overwhelming_push_trigger a s.game_state ∧
      (make_strategic_decision a s.game_state bt k).action ≠ "push") := by
  obtain ⟨h0, hest⟩ := reachable_elixir s h
  have hadv : s.game_state.our_elixir - s.game_state.enemy_elixir_estimate ≤ 0 := by
    omega
  refine ⟨h0, hadv, fun ai now r => hadv, ?_, fun a bt k => ⟨?_, ?_⟩⟩
  · simp only [determine_play_style]
    split
    · decide
    · split
      · next h3 =>
        exfalso
        omega
      · split
        · decide
        · decide
  · intro htrig
    have h7 := htrig.2.1
    omega
  · simp only [make_strategic_decision]
    split
    · exact fun hc =>
        absurd (show ("immediate_defense" : String) = "push" from hc) (by decide)
    · split
      · next hcond =>
        exfalso
        have h7 := hcond.2.1
        omega
      · split
        · exact fun hc =>
            absurd (show ("spell_prediction" : String) = "push" from hc) (by decide)
        · cases hadvo : detect_advanced_opportunity a bt s.game_state with
          | none =>
            show (make_tempo_based_decision a bt).action ≠ "push"
            simp only [make_tempo_based_decision]
            split
            · exact fun hc =>
                absurd (show ("conservative_opening" : String) = "push" from hc)
                  (by decide)
            · split
              · exact fun hc =>
                  absurd (show ("tempo_control" : String) = "push" from hc)
                    (by decide)
              · exact fun hc =>
                  absurd (show ("endgame_tactics" : String) = "push" from hc)
                    (by decide)
          | some d =>
            show d.action ≠ "push"
            rcases advanced_opportunity_action a bt s.game_state d hadvo with
              hd | hd
            · rw [hd]
              decide
            · rw [hd]
              decide

/-- Witness for C9 at the freshly initialized tracker. -/
theorem our_elixir_never_written_witness :
    determine_play_style initialGameState ≠ PlayStyle.AGGRESSIVE :=
  (our_elixir_never_written {} Reachable.init).2.2.2.1

/-- Every probe position of the detector sits at a vertical band whose
assessed threat is LOW (spawns, y ∈ {50, 80}) or MEDIUM (bridges, y = 285). -/
theorem detection_zones_threat_band :
    ∀ z ∈ detection_zones,
      assess_threat_level z.1 z.2 = ThreatLevel.LOW ∨
        assess_threat_level z.1 z.2 = ThreatLevel.MEDIUM := by
  decide

/-- C10: every enemy unit constructed by a battlefield scan has threat level
LOW or MEDIUM — never HIGH or CRITICAL — for any frame, because all fixed
probe positions lie at y ≤ 285 while HIGH needs y > 300 and CRITICAL
y > 400. -/
theorem scan_units_threat_low_or_medium (f : Frame) (now : ℚ) (u : EnemyUnit)
    (hu : u ∈ detect_enemy_units f now) :
    u.threat_level = ThreatLevel.LOW ∨ u.threat_level = ThreatLevel.MEDIUM := by
  simp only [detect_enemy_units] at hu
  rcases List.mem_filterMap.mp hu with ⟨z, hz, hzu⟩
  by_cases hd : detect_unit_at_position f z.1
  · rw [if_pos hd] at hzu
    injection hzu with h2
    subst h2
    exact detection_zones_threat_band z hz
  · rw [if_neg hd] at hzu
    exact Option.noConfusion hzu

/-- The unit the detector constructs at the left spawn probe of the all-red
frame. -/
def uDet : EnemyUnit :=
  { position := ENEMY_SPAWN_LEFT,
    unit_type := classify_unit_type allRed ENEMY_SPAWN_LEFT, timestamp := 0,
    threat_level := assess_threat_level ENEMY_SPAWN_LEFT Lane.LEFT,
    lane := Lane.LEFT }

/-- Witness for C10: the all-red frame makes the left spawn probe fire, and
the resulting unit's threat is LOW or MEDIUM. -/
theorem scan_units_threat_low_or_medium_witness :
    uDet.threat_level = ThreatLevel.LOW ∨
      uDet.threat_level = ThreatLevel.MEDIUM := by
  refine scan_units_threat_low_or_medium allRed 0 uDet ?_
  simp only [detect_enemy_units]
  refine List.mem_filterMap.mpr ⟨(ENEMY_SPAWN_LEFT, Lane.LEFT), by decide, ?_⟩
  have hd : detect_unit_at_position allRed ENEMY_SPAWN_LEFT = true := by decide
  rw [if_pos hd]
  rfl

/-- C2 (code bug, evaluated at the failing input): on a state whose LEFT lane
holds two units (threats LOW and MEDIUM), the program's
`_update_threat_levels` raises `TypeError` from the plain-Enum `max` at line
297 and records no pressure — the claimed maximum (MEDIUM) is never computed —
while a lane with a single unit (or none) still behaves as claimed, since
`max` of a singleton performs no comparison. -/
theorem update_threat_levels_enum_raises_on_two_units :
    update_threat_levels_enum gsTwo =
      Except.error "TypeError: > not supported between instances of ThreatLevel" ∧
    (update_threat_levels_enum gsB).map (fun g => g.pressure_lanes Lane.LEFT) =
      Except.ok ThreatLevel.CRITICAL ∧
    (update_threat_levels_enum gsB).map (fun g => g.pressure_lanes Lane.RIGHT) =
      Except.ok ThreatLevel.NONE :=
  ⟨rfl, rfl, rfl⟩

/-- C1 (code bug, evaluated at the failing input): with the single Scenario-B
unit at (150, 450) in lane LEFT, the detector does assign CRITICAL and the
singleton-lane threat recompute does record CRITICAL pressure even under
plain-Enum semantics; but `analyze_situation` raises `TypeError` on every
call (the `>=` of `_select_priority_lane` at line 374, evaluated before the
needs entry), and `_assess_defensive_needs` raises on the unit itself (line
390) — so no situational analysis, no defensive need and no Decision is ever
produced for this state. -/
theorem scenario_b_enum_analysis_raises :
    assess_threat_level (150, 450) Lane.LEFT = ThreatLevel.CRITICAL ∧
    (update_threat_levels_enum gsB).map (fun g => g.pressure_lanes Lane.LEFT) =
      Except.ok ThreatLevel.CRITICAL ∧
    (∀ (ai : TacticalAIState) (gs : GameState) (now : ℚ) (r : AnalysisRand),
      analyze_situation_enum ai gs now r =
        Except.error
          "TypeError: >= not supported between instances of ThreatLevel") ∧
    assess_defensive_needs_enum (fun _ => {}) gsB.enemy_units =
      Except.error "TypeError: >= not supported between instances of ThreatLevel" :=
  ⟨rfl, rfl, fun _ _ _ _ => rfl, rfl⟩

/-- C4 (code bug, evaluated at the failing input): the empty-slot call fails
with the documented condition (window untouched) even with a tactical context
supplied, since the raise at line 608 precedes any context use; a one-slot
call with no context returns that slot; but a one-slot call with a tactical
context supplied raises the plain-Enum `TypeError` out of
`tactical_ai.analyze_situation()` (line 612 reaching line 374) instead of
returning the slot. -/
theorem select_optimal_card_enum_context_raises :
    select_optimal_card_enum [] [] "neutral" (some ctx0) (fun _ => 0) =
      (Except.error "No cards available", []) ∧
    select_optimal_card_enum [] [1] "neutral" none (fun _ => 0) =
      (Except.ok (1, CardType.DPS, "offensive"), [1]) ∧
    select_optimal_card_enum [] [1] "neutral" (some ctx0) (fun _ => 0) =
      (Except.error "TypeError: >= not supported between instances of ThreatLevel",
        []) := by
  refine ⟨rfl, ?_, rfl⟩
  decide
